import Mathlib

/-!
Verification of the agent/tool configuration templates.

The repository supplies three plain tool functions (time lookup, weather
lookup, user-preference save) and two agent-pipeline configurations.
We embed the tool functions shallowly: the ambient wall clock (Python's
`datetime.datetime.now(ZoneInfo(tz))`) becomes an explicit parameter
`now : String → DateTime`, and the mutable `tool_context.state` dict
becomes an explicit association list threaded through `save_user_preference`.
`str.lower` is modelled by `strLower` (character-wise `Char.toLower`, which
agrees with Python on the ASCII city keys involved), and `strftime` with
format string `%Y-%m-%d %H:%M:%S %Z`
is modelled by `fmtDateTime` below (decimal rendering, zero-padding to
width 2 for all fields except the year).
-/

/-- A tool result dict. Each Python tool returns a dict whose possible keys
are `status`, `report`, `error_message`, `key`, `value`; we model it as a
record of optional fields, `none` meaning the key is absent. -/
structure ToolResult where
  status : String
  report : Option String := none
  error_message : Option String := none
  key : Option String := none
  value : Option String := none
deriving DecidableEq, Repr

/-- Session state: the string-keyed key-value store behind
`tool_context.state`, modelled as an association list (first match wins,
as a Python dict has unique keys and `stateSet` keeps that invariant). -/
def SessionState := List (String × String)

/-- Python `str.lower`, modelled character-wise. -/
def strLower (s : String) : String := String.mk (s.data.map Char.toLower)

/-- Python `dict.get`: first binding of the key, `None` when absent. -/
def lookupStr : List (String × String) → String → Option String
  | [], _ => none
  | (a, b) :: t, k => if a = k then some b else lookupStr t k

/-- Python dict assignment `d[k] = v`: overwrite the binding if present,
append it otherwise. -/
def stateSet : List (String × String) → String → String → List (String × String)
  | [], k, v => [(k, v)]
  | (a, b) :: t, k, v => if a = k then (k, v) :: t else (a, b) :: stateSet t k v

/-- A zoned wall-clock reading, the result of
`datetime.datetime.now(ZoneInfo(tz))`: the numeric fields plus the
timezone abbreviation that `%Z` prints. -/
structure DateTime where
  year : Nat
  month : Nat
  day : Nat
  hour : Nat
  minute : Nat
  second : Nat
  tzAbbrev : String
deriving DecidableEq, Repr

/-- The digit character for `n < 10`. -/
def toDigitChar (n : Nat) : Char := Char.ofNat (48 + n)

/-- Decimal digits of `n`, most significant first (fuel-based so that it
reduces in the kernel). -/
def natDigitsAux : Nat → Nat → List Char
  | 0, _ => []
  | fuel + 1, n =>
    if n < 10 then [toDigitChar n]
    else natDigitsAux fuel (n / 10) ++ [toDigitChar (n % 10)]

/-- Decimal rendering of a natural number, as `%d` prints it. -/
def natDigits (n : Nat) : List Char := natDigitsAux (n + 1) n

/-- `%02d`: zero-pad the decimal rendering to width 2. -/
def pad2 (n : Nat) : List Char :=
  if n < 10 then '0' :: natDigits n else natDigits n

/-- `now.strftime` with format `%Y-%m-%d %H:%M:%S %Z`. -/
def fmtDateTime (dt : DateTime) : String :=
  String.mk (natDigits dt.year ++ '-' :: pad2 dt.month ++ '-' :: pad2 dt.day
    ++ ' ' :: pad2 dt.hour ++ ':' :: pad2 dt.minute ++ ':' :: pad2 dt.second
    ++ ' ' :: dt.tzAbbrev.data)

/-- The fixed city → IANA-timezone mapping inside `get_current_time`. -/
def timezone_map : List (String × String) :=
  [("new york", "America/New_York"),
   ("london", "Europe/London"),
   ("tokyo", "Asia/Tokyo"),
   ("paris", "Europe/Paris"),
   ("sydney", "Australia/Sydney")]

/-- The five supported time-lookup cities (the keys of `timezone_map`). -/
def supportedCities : List String :=
  ["new york", "london", "tokyo", "paris", "sydney"]

/-- `get_current_time(city)`, with the wall clock `now` passed explicitly:
case-fold the city, look it up in `timezone_map`, return an error dict on a
miss and a formatted time report on a hit. (Python tests `if not tz_id`,
which for this map of nonempty values coincides with the `None` test.) -/
def get_current_time (now : String → DateTime) (city : String) : ToolResult :=
  match lookupStr timezone_map (strLower city) with
  | none =>
    { status := "error"
      error_message := some ("Timezone not found for \x27" ++ city ++ "\x27.") }
  | some tz_id =>
    { status := "success"
      report := some ("Current time in " ++ city ++ ": " ++ fmtDateTime (now tz_id)) }

/-- The fixed mock weather dataset inside `get_weather`. -/
def mock_weather : List (String × String) :=
  [("new york", "Sunny, 25°C (77°F)"),
   ("london", "Cloudy, 15°C (59°F)"),
   ("tokyo", "Partly cloudy, 28°C (82°F)")]

/-- The three cities of the weather dataset (the keys of `mock_weather`). -/
def weatherCities : List String := ["new york", "london", "tokyo"]

/-- `get_weather(city)`: case-fold the city, look it up in `mock_weather`,
return an error dict on a miss and a report dict on a hit. (Python tests
`if not report`, which for this map of nonempty values coincides with the
`None` test.) -/
def get_weather (city : String) : ToolResult :=
  match lookupStr mock_weather (strLower city) with
  | none =>
    { status := "error"
      error_message := some ("Weather data unavailable for \x27" ++ city ++ "\x27.") }
  | some r =>
    { status := "success"
      report := some ("Weather in " ++ city ++ ": " ++ r) }

/-- `save_user_preference(key, value, tool_context)`: write
`user:<key> = value` into session state and return the confirmation dict
`{"status": "saved", "key": key, "value": value}`. The state is threaded
explicitly; the Lean function is total, as the Python body cannot raise. -/
def save_user_preference (key value : String) (st : SessionState) :
    ToolResult × SessionState :=
  ({ status := "saved", key := some key, value := some value },
   stateSet st ("user:" ++ key) value)

/-- Looking up a key right after setting it yields the value just written. -/
theorem lookupStr_stateSet_self (st : SessionState) (k v : String) :
    lookupStr (stateSet st k v) k = some v := by
  induction st with
  | nil => simp [stateSet, lookupStr]
  | cons p t ih =>
    obtain ⟨a, b⟩ := p
    by_cases h : a = k
    · simp [stateSet, lookupStr, h]
    · simp [stateSet, lookupStr, h, ih]

/-- A lookup hits exactly when the key is among the stored keys. -/
theorem lookupStr_isSome_iff (m : List (String × String)) (s : String) :
    (lookupStr m s).isSome = true ↔ s ∈ m.map Prod.fst := by
  induction m with
  | nil => simp [lookupStr]
  | cons p t ih =>
    obtain ⟨a, b⟩ := p
    by_cases h : a = s
    · simp [lookupStr, h]
    · simp [lookupStr, h, ih, Ne.symm h]

/-- C3: for every key, value and session state, `save_user_preference`
writes the value under session-state key `user:<key>`, returns a
confirmation dict echoing exactly that key and value, and never produces
an error result (it is a total function: the Python body cannot raise). -/
theorem save_user_preference_contract (key value : String) (st : SessionState) :
    lookupStr (save_user_preference key value st).2 ("user:" ++ key) = some value ∧
    (save_user_preference key value st).1.key = some key ∧
    (save_user_preference key value st).1.value = some value ∧
    (save_user_preference key value st).1.status ≠ "error" ∧
    (save_user_preference key value st).1.error_message = none := by
  refine ⟨?_, rfl, rfl, by simp [save_user_preference], rfl⟩
  exact lookupStr_stateSet_self st ("user:" ++ key) value

/-- C5: saving the same key/value twice produces two structurally identical
confirmation results, and the final session state holds the (latest) value
under `user:<key>`. -/
theorem save_user_preference_idempotent (key value : String) (st : SessionState) :
    (save_user_preference key value st).1 =
      (save_user_preference key value (save_user_preference key value st).2).1 ∧
    lookupStr (save_user_preference key value (save_user_preference key value st).2).2
      ("user:" ++ key) = some value := by
  exact ⟨rfl, lookupStr_stateSet_self _ ("user:" ++ key) value⟩

/-- C9: the result of `save_user_preference` always has the caller-defined
status token `"saved"` — never `"success"`, never `"error"` — and carries
neither a `report` nor an `error_message` field, so a caller testing
`status == "success"` will not classify a save as a success. -/
theorem save_user_preference_status_saved (key value : String) (st : SessionState) :
    (save_user_preference key value st).1.status = "saved" ∧
    (save_user_preference key value st).1.status ≠ "success" ∧
    (save_user_preference key value st).1.status ≠ "error" ∧
    (save_user_preference key value st).1.report = none ∧
    (save_user_preference key value st).1.error_message = none := by
  exact ⟨rfl, by simp [save_user_preference], by simp [save_user_preference], rfl, rfl⟩

/-- `toDigitChar` yields a digit character for `n < 10`. -/
theorem isDigit_toDigitChar (n : Nat) (h : n < 10) : (toDigitChar n).isDigit = true := by
  interval_cases n <;> decide

/-- `natDigitsAux` does not depend on the fuel once it exceeds `n`. -/
theorem natDigitsAux_fuel : ∀ fuel fuel' n : Nat, n < fuel → n < fuel' →
    natDigitsAux fuel n = natDigitsAux fuel' n := by
  intro fuel
  induction fuel with
  | zero => exact fun fuel' n h _ => absurd h (Nat.not_lt_zero n)
  | succ f ih =>
    intro fuel' n h h'
    cases fuel' with
    | zero => exact absurd h' (Nat.not_lt_zero n)
    | succ f' =>
      by_cases h10 : n < 10
      · simp [natDigitsAux, h10]
      · simp only [natDigitsAux, if_neg h10]
        have hlt : n / 10 < n := Nat.div_lt_self (by omega) (by omega)
        rw [ih f' (n / 10) (by omega) (by omega)]

/-- Rendering a one-digit number. -/
theorem natDigits_small (n : Nat) (h : n < 10) : natDigits n = [toDigitChar n] := by
  simp [natDigits, natDigitsAux, h]

/-- Rendering peels off the least significant digit. -/
theorem natDigits_step (n : Nat) (h : 10 ≤ n) :
    natDigits n = natDigits (n / 10) ++ [toDigitChar (n % 10)] := by
  have h2 : natDigitsAux (n + 1) n = natDigitsAux n (n / 10) ++ [toDigitChar (n % 10)] := by
    simp only [natDigitsAux, if_neg (Nat.not_lt.mpr h)]
  show natDigitsAux (n + 1) n = natDigitsAux (n / 10 + 1) (n / 10) ++ [toDigitChar (n % 10)]
  rw [h2, natDigitsAux_fuel n (n / 10 + 1) (n / 10) (by omega) (by omega)]

/-- `%02d` of `n < 100` is two digit characters. -/
theorem pad2_shape (n : Nat) (h : n < 100) :
    ∃ a b, pad2 n = [a, b] ∧ a.isDigit = true ∧ b.isDigit = true := by
  by_cases h10 : n < 10
  · exact ⟨'0', toDigitChar n, by simp [pad2, h10, natDigits_small n h10],
      by decide, isDigit_toDigitChar n h10⟩
  · refine ⟨toDigitChar (n / 10), toDigitChar (n % 10), ?_,
      isDigit_toDigitChar _ (by omega), isDigit_toDigitChar _ (by omega)⟩
    simp [pad2, h10, natDigits_step n (by omega), natDigits_small (n / 10) (by omega)]

/-- `%d` of a four-digit year is four digit characters. -/
theorem natDigits_year_shape (y : Nat) (h1 : 1000 ≤ y) (h2 : y < 10000) :
    ∃ a b c d, natDigits y = [a, b, c, d] ∧ a.isDigit = true ∧ b.isDigit = true ∧
      c.isDigit = true ∧ d.isDigit = true := by
  refine ⟨toDigitChar (y / 10 / 10 / 10), toDigitChar (y / 10 / 10 % 10),
    toDigitChar (y / 10 % 10), toDigitChar (y % 10), ?_,
    isDigit_toDigitChar _ (by omega), isDigit_toDigitChar _ (by omega),
    isDigit_toDigitChar _ (by omega), isDigit_toDigitChar _ (by omega)⟩
  rw [natDigits_step y (by omega), natDigits_step (y / 10) (by omega),
    natDigits_step (y / 10 / 10) (by omega),
    natDigits_small (y / 10 / 10 / 10) (by omega)]
  simp

/-- Checks the documented timestamp shape `YYYY-MM-DD HH:MM:SS <tz-abbrev>`:
four digits, dash, two digits, dash, two digits, space, two digits, colon,
two digits, colon, two digits, space, then a nonempty abbreviation. -/
def isTimestampFmt (s : String) : Bool :=
  match s.data with
  | y1 :: y2 :: y3 :: y4 :: c1 :: m1 :: m2 :: c2 :: d1 :: d2 :: c3 ::
    h1 :: h2 :: c4 :: n1 :: n2 :: c5 :: s1 :: s2 :: c6 :: tz =>
    y1.isDigit && y2.isDigit && y3.isDigit && y4.isDigit && (c1 == '-') &&
    m1.isDigit && m2.isDigit && (c2 == '-') && d1.isDigit && d2.isDigit && (c3 == ' ') &&
    h1.isDigit && h2.isDigit && (c4 == ':') && n1.isDigit && n2.isDigit && (c5 == ':') &&
    s1.isDigit && s2.isDigit && (c6 == ' ') && !tz.isEmpty
  | _ => false

/-- A nonempty string has a nonempty character list. -/
theorem data_ne_nil (s : String) (h : s ≠ "") : s.data ≠ [] := by
  intro hn
  apply h
  cases s with
  | mk l => cases hn; rfl

/-- A wall clock whose readings are calendar-plausible: four-digit year,
two-digit month/day/hour/minute/second, nonempty timezone abbreviation.
Every reading `datetime.datetime.now(ZoneInfo(tz))` satisfies this. -/
def ValidClock (now : String → DateTime) : Prop :=
  ∀ tz : String, 1000 ≤ (now tz).year ∧ (now tz).year < 10000 ∧
    (now tz).month < 100 ∧ (now tz).day < 100 ∧ (now tz).hour < 100 ∧
    (now tz).minute < 100 ∧ (now tz).second < 100 ∧ (now tz).tzAbbrev ≠ ""

/-- `strftime` output of a calendar-plausible reading matches the
documented timestamp format. -/
theorem isTimestampFmt_fmtDateTime (dt : DateTime)
    (hy1 : 1000 ≤ dt.year) (hy2 : dt.year < 10000)
    (hmo : dt.month < 100) (hda : dt.day < 100) (hho : dt.hour < 100)
    (hmi : dt.minute < 100) (hse : dt.second < 100) (htz : dt.tzAbbrev ≠ "") :
    isTimestampFmt (fmtDateTime dt) = true := by
  obtain ⟨a, b, c, d, hy, ha, hb, hc, hd⟩ := natDigits_year_shape dt.year hy1 hy2
  obtain ⟨m1, m2, hm, hm1, hm2⟩ := pad2_shape dt.month hmo
  obtain ⟨d1, d2, hdd, hd1, hd2⟩ := pad2_shape dt.day hda
  obtain ⟨h1, h2, hhh, hh1, hh2⟩ := pad2_shape dt.hour hho
  obtain ⟨n1, n2, hnn, hn1, hn2⟩ := pad2_shape dt.minute hmi
  obtain ⟨s1, s2, hss, hs1, hs2⟩ := pad2_shape dt.second hse
  cases htzdata : dt.tzAbbrev.data with
  | nil => exact absurd htzdata (data_ne_nil dt.tzAbbrev htz)
  | cons t ts =>
    have hdata : (fmtDateTime dt).data =
        a :: b :: c :: d :: '-' :: m1 :: m2 :: '-' :: d1 :: d2 :: ' ' ::
        h1 :: h2 :: ':' :: n1 :: n2 :: ':' :: s1 :: s2 :: ' ' :: t :: ts := by
      simp [fmtDateTime, hy, hm, hdd, hhh, hnn, hss, htzdata]
    simp only [isTimestampFmt, hdata]
    simp [ha, hb, hc, hd, hm1, hm2, hd1, hd2, hh1, hh2, hn1, hn2, hs1, hs2]

/-- The keys of `timezone_map` are exactly the supported cities. -/
theorem timezone_map_keys : timezone_map.map Prod.fst = supportedCities := rfl

/-- The keys of `mock_weather` are exactly the weather-dataset cities. -/
theorem mock_weather_keys : mock_weather.map Prod.fst = weatherCities := rfl

/-- C1: when the lower-cased city is one of the five supported cities,
`get_current_time` returns status `"success"` and a report whose timestamp
part (the current reading of that city's timezone) matches
`YYYY-MM-DD HH:MM:SS <tz-abbrev>`; for any other city it returns status
`"error"` with a non-empty `error_message`. -/
theorem get_current_time_contract (now : String → DateTime) (city : String)
    (hnow : ValidClock now) :
    (strLower city ∈ supportedCities →
      (get_current_time now city).status = "success" ∧
      ∃ tz ts, lookupStr timezone_map (strLower city) = some tz ∧
        (get_current_time now city).report =
          some ("Current time in " ++ city ++ ": " ++ ts) ∧
        ts = fmtDateTime (now tz) ∧ isTimestampFmt ts = true) ∧
    (strLower city ∉ supportedCities →
      (get_current_time now city).status = "error" ∧
      ∃ msg, (get_current_time now city).error_message = some msg ∧ msg ≠ "") := by
  constructor
  · intro hmem
    have hsome : (lookupStr timezone_map (strLower city)).isSome = true := by
      rw [lookupStr_isSome_iff, timezone_map_keys]
      exact hmem
    obtain ⟨tz, htz⟩ := Option.isSome_iff_exists.mp hsome
    obtain ⟨hy1, hy2, hmo, hda, hho, hmi, hse, htzab⟩ := hnow tz
    exact ⟨by simp [get_current_time, htz], tz, fmtDateTime (now tz), htz,
      by simp [get_current_time, htz], rfl,
      isTimestampFmt_fmtDateTime (now tz) hy1 hy2 hmo hda hho hmi hse htzab⟩
  · intro hmem
    have hnone : lookupStr timezone_map (strLower city) = none := by
      cases hcase : lookupStr timezone_map (strLower city) with
      | none => rfl
      | some tz =>
        refine absurd ?_ hmem
        rw [← timezone_map_keys, ← lookupStr_isSome_iff]
        simp [hcase]
    refine ⟨by simp [get_current_time, hnone],
      "Timezone not found for \x27" ++ city ++ "\x27.",
      by simp [get_current_time, hnone], ?_⟩
    intro hemp
    have := congrArg String.data hemp
    simp [String.data_append] at this

/-- A concrete test clock: every zone reads 2024-05-06 07:08:09 JST. -/
def testClock : String → DateTime := fun _ => ⟨2024, 5, 6, 7, 8, 9, "JST"⟩

/-- The test clock is calendar-plausible. -/
theorem testClock_valid : ValidClock testClock := by
  intro tz
  simp [testClock]

theorem get_current_time_contract_witness :
    ((get_current_time testClock "Tokyo").status = "success" ∧
      ∃ tz ts, lookupStr timezone_map (strLower "Tokyo") = some tz ∧
        (get_current_time testClock "Tokyo").report =
          some ("Current time in " ++ "Tokyo" ++ ": " ++ ts) ∧
        ts = fmtDateTime (testClock tz) ∧ isTimestampFmt ts = true) ∧
    ((get_current_time testClock "Berlin").status = "error" ∧
      ∃ msg, (get_current_time testClock "Berlin").error_message = some msg ∧ msg ≠ "") :=
  ⟨(get_current_time_contract testClock "Tokyo" testClock_valid).1 (by decide),
   (get_current_time_contract testClock "Berlin" testClock_valid).2 (by decide)⟩

/-- C2: when the lower-cased city is a key of the weather dataset,
`get_weather` returns status `"success"` with a report string; for any
other city it returns status `"error"` with an `error_message`. -/
theorem get_weather_contract (city : String) :
    (strLower city ∈ weatherCities →
      (get_weather city).status = "success" ∧
      ∃ r, (get_weather city).report = some r) ∧
    (strLower city ∉ weatherCities →
      (get_weather city).status = "error" ∧
      ∃ msg, (get_weather city).error_message = some msg) := by
  constructor
  · intro hmem
    have hsome : (lookupStr mock_weather (strLower city)).isSome = true := by
      rw [lookupStr_isSome_iff, mock_weather_keys]
      exact hmem
    obtain ⟨r, hr⟩ := Option.isSome_iff_exists.mp hsome
    exact ⟨by simp [get_weather, hr], "Weather in " ++ city ++ ": " ++ r,
      by simp [get_weather, hr]⟩
  · intro hmem
    have hnone : lookupStr mock_weather (strLower city) = none := by
      cases hcase : lookupStr mock_weather (strLower city) with
      | none => rfl
      | some r =>
        refine absurd ?_ hmem
        rw [← mock_weather_keys, ← lookupStr_isSome_iff]
        simp [hcase]
    exact ⟨by simp [get_weather, hnone],
      "Weather data unavailable for \x27" ++ city ++ "\x27.",
      by simp [get_weather, hnone]⟩

theorem get_weather_contract_witness :
    ((get_weather "Tokyo").status = "success" ∧
      ∃ r, (get_weather "Tokyo").report = some r) ∧
    ((get_weather "Berlin").status = "error" ∧
      ∃ msg, (get_weather "Berlin").error_message = some msg) :=
  ⟨(get_weather_contract "Tokyo").1 (by decide),
   (get_weather_contract "Berlin").2 (by decide)⟩

/-- C4 counterexample: the confirmation dict of `save_user_preference`
carries neither a `report` nor an `error_message`, so at this concrete
input "exactly one of report or error_message is present" is false. -/
theorem result_payload_xor_counterexample :
    (((save_user_preference "favorite_city" "Paris" []).1.report.isSome ^^
      (save_user_preference "favorite_city" "Paris" []).1.error_message.isSome) = false) ∧
    (save_user_preference "favorite_city" "Paris" []).1.report = none ∧
    (save_user_preference "favorite_city" "Paris" []).1.error_message = none := by
  exact ⟨rfl, rfl, rfl⟩

/-- C4 (amended): the two lookup tools return exactly one of `report` and
`error_message` alongside `status`; `save_user_preference` instead returns
its payload as the key/value echo — `key` and `value` are present and
neither `report` nor `error_message` is. -/
theorem result_payload_invariant (now : String → DateTime) (city k v : String)
    (st : SessionState) :
    (((get_current_time now city).report.isSome ^^
      (get_current_time now city).error_message.isSome) = true) ∧
    (((get_weather city).report.isSome ^^
      (get_weather city).error_message.isSome) = true) ∧
    (save_user_preference k v st).1.key.isSome = true ∧
    (save_user_preference k v st).1.value.isSome = true ∧
    (save_user_preference k v st).1.report = none ∧
    (save_user_preference k v st).1.error_message = none := by
  refine ⟨?_, ?_, rfl, rfl, rfl, rfl⟩
  · unfold get_current_time
    cases lookupStr timezone_map (strLower city) <;> rfl
  · unfold get_weather
    cases lookupStr mock_weather (strLower city) <;> rfl

/-- C6: for `"Tokyo"`, time lookup succeeds with the current Asia/Tokyo
local time and weather lookup succeeds with a report containing
"Partly cloudy, 28°C (82°F)"; for `"Berlin"`, both tools return
status `"error"`. -/
theorem tokyo_berlin_scenario (now : String → DateTime) :
    (get_current_time now "Tokyo").status = "success" ∧
    (get_current_time now "Tokyo").report =
      some ("Current time in Tokyo: " ++ fmtDateTime (now "Asia/Tokyo")) ∧
    (get_weather "Tokyo").status = "success" ∧
    (∃ p q, (get_weather "Tokyo").report =
      some (p ++ "Partly cloudy, 28°C (82°F)" ++ q)) ∧
    (get_current_time now "Berlin").status = "error" ∧
    (get_weather "Berlin").status = "error" := by
  refine ⟨rfl, ?_, rfl, ⟨"Weather in Tokyo: ", "", ?_⟩, rfl, rfl⟩
  · show some ("Current time in " ++ "Tokyo" ++ ": " ++ fmtDateTime (now "Asia/Tokyo")) =
      some ("Current time in Tokyo: " ++ fmtDateTime (now "Asia/Tokyo"))
    rfl
  · rfl

/-- C8: each tool is deterministic relative to its explicit inputs and the
ambient environment: results agree whenever the arguments, the starting
session state and the wall clock's readings agree. -/
theorem tools_deterministic (now now' : String → DateTime) (city k v : String)
    (st : SessionState) (h : ∀ tz, now tz = now' tz) :
    get_current_time now city = get_current_time now' city ∧
    get_weather city = get_weather city ∧
    save_user_preference k v st = save_user_preference k v st := by
  refine ⟨?_, rfl, rfl⟩
  unfold get_current_time
  cases lookupStr timezone_map (strLower city) with
  | none => rfl
  | some tz => simp [h tz]

theorem tools_deterministic_witness :
    get_current_time testClock "Paris" = get_current_time testClock "Paris" ∧
    get_weather "Paris" = get_weather "Paris" ∧
    save_user_preference "units" "metric" [] = save_user_preference "units" "metric" [] :=
  tools_deterministic testClock testClock "Paris" "units" "metric" [] (fun _ => rfl)

/-- C10: the weather dataset's cities are a subset of the timezone map's
cities, so weather success implies time success; the converse fails at
`"Paris"`, which succeeds for time lookup but not for weather lookup. -/
theorem weather_success_implies_time_success (now : String → DateTime) :
    (∀ city, (get_weather city).status = "success" →
      (get_current_time now city).status = "success") ∧
    (get_current_time now "Paris").status = "success" ∧
    (get_weather "Paris").status = "error" := by
  refine ⟨?_, rfl, rfl⟩
  intro city hw
  have hsome : (lookupStr mock_weather (strLower city)).isSome = true := by
    cases hcase : lookupStr mock_weather (strLower city) with
    | none => simp [get_weather, hcase] at hw
    | some r => rfl
  have hmem : strLower city ∈ weatherCities := by
    rw [← mock_weather_keys]
    exact (lookupStr_isSome_iff mock_weather (strLower city)).mp hsome
  have hmem5 : strLower city ∈ supportedCities := by
    simp only [weatherCities, List.mem_cons, List.not_mem_nil, or_false] at hmem
    rcases hmem with h | h | h <;> simp [supportedCities, h]
  have hsome5 : (lookupStr timezone_map (strLower city)).isSome = true := by
    rw [lookupStr_isSome_iff, timezone_map_keys]
    exact hmem5
  obtain ⟨tz, htz⟩ := Option.isSome_iff_exists.mp hsome5
  simp [get_current_time, htz]

theorem weather_success_implies_time_success_witness :
    (get_current_time testClock "London").status = "success" ∧
    ((get_current_time testClock "Paris").status = "success" ∧
     (get_weather "Paris").status = "error") :=
  ⟨(weather_success_implies_time_success testClock).1 "London" (by decide),
   (weather_success_implies_time_success testClock).2⟩

/-- An `LlmAgent`/`Agent` configuration record: name, model identifier,
description, instruction template and optional `output_key`. -/
structure LlmAgentDef where
  name : String
  model : String
  description : String := ""
  instruction : String := ""
  output_key : Option String := none

/-- A composite agent configuration: a single LLM agent, a `ParallelAgent`
over sub-agents, or a `SequentialAgent` (name, description, stages). -/
inductive AgentDef where
  | llm : LlmAgentDef → AgentDef
  | parallel : String → List AgentDef → AgentDef
  | sequential : String → String → List AgentDef → AgentDef

/-- The shared model identifier of `multi_agent_template.py`. -/
def MODEL : String := "gemini-2.5-flash"

/-- The `Researcher` specialist agent. -/
def research_agent : LlmAgentDef :=
  { name := "Researcher"
    model := MODEL
    description := "Researches a topic and provides key findings."
    instruction := "You are a research specialist. Given a topic, provide 3-5 key findings\nwith brief explanations. Be factual and concise."
    output_key := some "research_findings" }

/-- The `DataAnalyst` specialist agent. -/
def data_agent : LlmAgentDef :=
  { name := "DataAnalyst"
    model := MODEL
    description := "Analyzes data and provides statistical insights."
    instruction := "You are a data analysis specialist. Given a topic, provide\nrelevant statistics, trends, and quantitative insights."
    output_key := some "data_insights" }

/-- The `Writer` agent, whose instruction references the two upstream
output keys. -/
def writer_agent : LlmAgentDef :=
  { name := "Writer"
    model := MODEL
    description := "Writes polished content from research and data."
    instruction := "You are a professional writer. Using the research findings\nfrom {research_findings} and data insights from {data_insights},\nwrite a well-structured, engaging summary. Include an introduction,\nkey points, and conclusion."
    output_key := some "final_report" }

/-- The `GatherInfo` parallel group over the two specialists. -/
def parallel_gather : AgentDef :=
  AgentDef.parallel "GatherInfo" [AgentDef.llm research_agent, AgentDef.llm data_agent]

/-- The `ReportPipeline` sequential root agent: the parallel group first,
then the writer. -/
def root_agent : AgentDef :=
  AgentDef.sequential "ReportPipeline"
    "Generates comprehensive reports by researching, analyzing data, and writing."
    [parallel_gather, AgentDef.llm writer_agent]

/-- A token of an instruction template: a literal run or a `{...}`
placeholder naming an output key. -/
inductive Tok where
  | lit : String → Tok
  | var : String → Tok
deriving DecidableEq, Repr

/-- Modelled from the spec: the external framework (not part of this
repository) splits an instruction into literal runs and `{output_key}`
placeholders before interpolation; this tokenizer reproduces that split.
The first argument tells whether we are inside a placeholder. -/
def parseTemplateAux : Bool → List Char → List Char → List Tok
  | false, [], acc => [Tok.lit (String.mk acc.reverse)]
  | false, c :: rest, acc =>
    if c = '{' then Tok.lit (String.mk acc.reverse) :: parseTemplateAux true rest []
    else parseTemplateAux false rest (c :: acc)
  | true, [], acc => [Tok.var (String.mk acc.reverse)]
  | true, c :: rest, acc =>
    if c = '}' then Tok.var (String.mk acc.reverse) :: parseTemplateAux false rest []
    else parseTemplateAux true rest (c :: acc)

/-- Tokenize an instruction template. -/
def parseTemplate (s : String) : List Tok := parseTemplateAux false s.data []

/-- The output keys an instruction template references. -/
def placeholders (s : String) : List String :=
  (parseTemplate s).filterMap fun t =>
    match t with
    | Tok.var n => some n
    | Tok.lit _ => none

/-- Modelled from the spec: variable interpolation keeps literal runs and
replaces each placeholder by the session-state value under that key
(empty when absent; the claim only concerns states where both upstream
keys are present). -/
def renderTok (st : String → Option String) : Tok → String
  | Tok.lit s => s
  | Tok.var n => (st n).getD ""

/-- The rendered instruction of an agent under a session state. -/
def renderInstruction (st : String → Option String) (a : LlmAgentDef) : String :=
  ((parseTemplate a.instruction).map (renderTok st)).foldr (· ++ ·) ""

mutual

/-- All `output_key`s an agent configuration produces. -/
def outputKeys : AgentDef → List String
  | AgentDef.llm a => a.output_key.toList
  | AgentDef.parallel _ subs => outputKeysList subs
  | AgentDef.sequential _ _ subs => outputKeysList subs

/-- All `output_key`s a list of agent configurations produces. -/
def outputKeysList : List AgentDef → List String
  | [] => []
  | a :: t => outputKeys a ++ outputKeysList t

end

set_option maxRecDepth 100000 in
/-- C7: in the configured `ReportPipeline`, every placeholder of the
writer stage's instruction names an `output_key` produced by the strictly
earlier stage (`parallel_gather`, stage 0 of the two stages), and after
interpolation against any session state holding both upstream outputs the
writer's rendered instruction contains the literal text of both. -/
theorem writer_pipeline_invariant (st : String → Option String) (r d : String)
    (hr : st "research_findings" = some r) (hd : st "data_insights" = some d) :
    root_agent = AgentDef.sequential "ReportPipeline"
      "Generates comprehensive reports by researching, analyzing data, and writing."
      [parallel_gather, AgentDef.llm writer_agent] ∧
    (∀ ph ∈ placeholders writer_agent.instruction, ph ∈ outputKeys parallel_gather) ∧
    (∃ p q, renderInstruction st writer_agent = p ++ r ++ q) ∧
    (∃ p q, renderInstruction st writer_agent = p ++ d ++ q) := by
  have hparse : parseTemplate writer_agent.instruction =
      [Tok.lit "You are a professional writer. Using the research findings\nfrom ",
       Tok.var "research_findings",
       Tok.lit " and data insights from ",
       Tok.var "data_insights",
       Tok.lit ",\nwrite a well-structured, engaging summary. Include an introduction,\nkey points, and conclusion."] := by
    rfl
  have hkeys : outputKeys parallel_gather = ["research_findings", "data_insights"] := by
    simp [parallel_gather, research_agent, data_agent, outputKeys, outputKeysList,
      Option.toList]
  have hrender : renderInstruction st writer_agent =
      "You are a professional writer. Using the research findings\nfrom " ++
      (r ++ (" and data insights from " ++ (d ++
      (",\nwrite a well-structured, engaging summary. Include an introduction,\nkey points, and conclusion." ++ "")))) := by
    simp [renderInstruction, hparse, renderTok, hr, hd]
  refine ⟨rfl, ?_, ?_, ?_⟩
  · intro ph hph
    rw [hkeys]
    rw [show placeholders writer_agent.instruction = ["research_findings", "data_insights"] from by
      simp [placeholders, hparse]] at hph
    simpa using hph
  · refine ⟨"You are a professional writer. Using the research findings\nfrom ",
      " and data insights from " ++ (d ++
      (",\nwrite a well-structured, engaging summary. Include an introduction,\nkey points, and conclusion." ++ "")), ?_⟩
    rw [hrender]
    simp [String.append_assoc]
  · refine ⟨"You are a professional writer. Using the research findings\nfrom " ++
      (r ++ " and data insights from "),
      ",\nwrite a well-structured, engaging summary. Include an introduction,\nkey points, and conclusion." ++ "", ?_⟩
    rw [hrender]
    simp [String.append_assoc]

/-- A concrete session state holding both upstream outputs. -/
def testState : String → Option String := fun k =>
  if k = "research_findings" then some "RF text"
  else if k = "data_insights" then some "DI text" else none

theorem writer_pipeline_invariant_witness :
    root_agent = AgentDef.sequential "ReportPipeline"
      "Generates comprehensive reports by researching, analyzing data, and writing."
      [parallel_gather, AgentDef.llm writer_agent] ∧
    (∀ ph ∈ placeholders writer_agent.instruction, ph ∈ outputKeys parallel_gather) ∧
    (∃ p q, renderInstruction testState writer_agent = p ++ "RF text" ++ q) ∧
    (∃ p q, renderInstruction testState writer_agent = p ++ "DI text" ++ q) :=
  writer_pipeline_invariant testState "RF text" "DI text" (by decide) (by decide)
